import Mathlib

/-!
Verification development for the tunemate-backend compatibility scoring and
recommendation engine.

The definitions below are a shallow embedding of the JavaScript/SQL source:

* the five-component match score of `Match.calculateMatchScore`
  (models/Match.js) and of `calculateMatchScore` in
  workers/match-calculation.worker.js (identical arithmetic, but the worker
  rounds its return value to one decimal place while the model returns the
  raw value);
* the score cache keys and the get-or-compute path of
  `Match.getPotentialMatches` and of the worker;
* the canonical-pair upsert of `storeMatchScore`;
* the per-user drain loop of the match-calculation worker;
* the candidate (geo-filter) queries of both paths;
* the preference/location checks with their JS `||` defaulting;
* the established-user branch of the song recommendation route.

Database tables are modelled as explicit lists/functions carried in state
structures; SQL aggregation is rendered as list and finset folds; JavaScript
number arithmetic is modelled over `ℚ`/`ℝ` (with `Real.sqrt` for
`Math.sqrt`, `Real.arccos` for SQL `acos`, and `round` for `Math.round`).
-/

namespace Tunemate

/-- Row of the `user_music_history` table as seen by the score queries for one
user: the song id, the cumulative `play_count`, and the hour of day extracted
from `last_played` (SQL `EXTRACT(HOUR FROM last_played)`). -/
structure HistRow where
  songId : String
  playCount : Nat
  hourOfDay : Nat
deriving DecidableEq

/-- Row of the `songs` table as used by the score queries.  `primaryArtists`
models SQL `string_to_array(s.primary_artists, ',')`: the comma-separated
credit string already split into its (untrimmed) tokens.  `releaseYear` is
nullable. -/
structure SongMeta where
  primaryArtists : List String
  releaseYear : Option Int

/-- Snapshot of the signal store consulted by `calculateMatchScore`:
per-user `user_music_history` rows, the `songs` table (lookup by song id;
`none` when the joined row is absent), and the non-null-genre rows of
`user_music_preferences` as (genre, preference_weight) pairs. -/
structure DB where
  history : String → List HistRow
  song : String → Option SongMeta
  genreRows : String → List (String × ℚ)

/-- Result of the per-user song query `SELECT song_id, play_count FROM
user_music_history WHERE user_id = $1`. -/
def userSongs (db : DB) (u : String) : List HistRow := db.history u

/-- Number of rows of the common-songs join (`user_music_history a JOIN
user_music_history b ON a.song_id = b.song_id` filtered to the two users):
one row per pair of history rows sharing a song id. -/
def commonSongsCount (db : DB) (u1 u2 : String) : Nat :=
  ((userSongs db u1).map (fun a =>
    ((userSongs db u2).map (fun b => if a.songId = b.songId then 1 else 0)).sum)).sum

/-- The `songJaccardSimilarity` of component 1: `common / (len1 + len2 -
common)` when both histories are non-empty (JS truthiness of the lengths),
otherwise 0. -/
def songJaccard (db : DB) (u1 u2 : String) : ℚ :=
  if (userSongs db u1).length ≠ 0 ∧ (userSongs db u2).length ≠ 0 then
    (commonSongsCount db u1 u2 : ℚ) /
      (((userSongs db u1).length : ℚ) + ((userSongs db u2).length : ℚ)
        - (commonSongsCount db u1 u2 : ℚ))
  else 0

/-- Component 1 sub-score: `songJaccardSimilarity * 35`. -/
def songScoreQ (db : DB) (u1 u2 : String) : ℚ := songJaccard db u1 u2 * 35

/-- Rows produced by `unnest(string_to_array(s.primary_artists, ','))` joined
with the user's history: one (artist token, play_count) pair per token per
history row whose song exists in `songs`. -/
def artistRows (db : DB) (u : String) : List (String × Nat) :=
  ((userSongs db u).map (fun r =>
    match db.song r.songId with
    | some s => s.primaryArtists.map (fun a => (a, r.playCount))
    | none => [])).flatten

/-- Distinct artist tokens of a user, i.e. the `GROUP BY artist` keys of the
`user1_artists` / `user2_artists` CTEs (grouping is on the untrimmed token). -/
def artistGroups (db : DB) (u : String) : List String :=
  ((artistRows db u).map Prod.fst).dedup

/-- Aggregated `sum(umh.play_count)` for one artist-token group. -/
def artistPlay (db : DB) (u : String) (a : String) : Nat :=
  (((artistRows db u).filter (fun p => p.1 = a)).map Prod.snd).sum

/-- SQL `trim(x)`: strip leading and trailing whitespace from the character
data. -/
def sqlTrim (s : String) : String :=
  String.mk (((s.data.dropWhile Char.isWhitespace).reverse.dropWhile
    Char.isWhitespace).reverse)

/-- The `commonArtistWeight` accumulator: over every join row of
`user1_artists u1 JOIN user2_artists u2 ON trim(u1.artist) = trim(u2.artist)`,
the sum of `min(user1_count, user2_count)`. -/
def commonArtistWeight (db : DB) (u1 u2 : String) : Nat :=
  ((artistGroups db u1).map (fun t1 =>
    ((artistGroups db u2).map (fun t2 =>
      if sqlTrim t1 = sqlTrim t2 then min (artistPlay db u1 t1) (artistPlay db u2 t2)
      else 0)).sum)).sum

/-- The `user1ArtistPlayCount` / `user2ArtistPlayCount` totals: sum of
`play_count` over the user's plain history rows (note: not over the
artist-expanded rows). -/
def totalPlays (db : DB) (u : String) : Nat :=
  ((userSongs db u).map (·.playCount)).sum

/-- Component 2 sub-score: `commonArtistWeight / max(total1, total2) * 25`
when either total is non-zero (JS truthiness of `total1 || total2`),
otherwise 0. -/
def artistScoreQ (db : DB) (u1 u2 : String) : ℚ :=
  if totalPlays db u1 ≠ 0 ∨ totalPlays db u2 ≠ 0 then
    ((commonArtistWeight db u1 u2 : ℚ)
      / ((max (totalPlays db u1) (totalPlays db u2) : Nat) : ℚ)) * 25
  else 0

/-- Aggregated genre weight of one user for one genre (`sum(preference_weight)
... GROUP BY genre` over the non-null-genre preference rows). -/
def genreWeight (db : DB) (u : String) (g : String) : ℚ :=
  (((db.genreRows u).filter (fun p => p.1 = g)).map Prod.snd).sum

/-- The `all_genres` CTE: distinct union of both users' genre keys. -/
def allGenres (db : DB) (u1 u2 : String) : Finset String :=
  ((db.genreRows u1).map Prod.fst).toFinset ∪ ((db.genreRows u2).map Prod.fst).toFinset

/-- Genre `dotProduct` over the `all_genres` rows. -/
def genreDot (db : DB) (u1 u2 : String) : ℚ :=
  (allGenres db u1 u2).sum (fun g => genreWeight db u1 g * genreWeight db u2 g)

/-- Genre squared magnitude of the first-named user, accumulated over the
`all_genres` rows of the ordered call `(u1, u2)` (terms of genres outside the
user's own rows are 0). -/
def genreMsqFst (db : DB) (u1 u2 : String) : ℚ :=
  (allGenres db u1 u2).sum (fun g => genreWeight db u1 g * genreWeight db u1 g)

/-- Shared cosine step of components 3-5: `sqrt` the two squared magnitudes
and, when both are positive, divide the dot product by their product,
otherwise yield 0 (the sub-score stays 0). -/
noncomputable def cosineSim (dot msq1 msq2 : ℚ) : ℝ :=
  if 0 < Real.sqrt (msq1 : ℝ) ∧ 0 < Real.sqrt (msq2 : ℝ) then
    (dot : ℝ) / (Real.sqrt (msq1 : ℝ) * Real.sqrt (msq2 : ℝ))
  else 0

/-- Component 3 sub-score: genre cosine similarity times 20. -/
noncomputable def genreScore (db : DB) (u1 u2 : String) : ℝ :=
  cosineSim (genreDot db u1 u2) (genreMsqFst db u1 u2) (genreMsqFst db u2 u1) * 20

/-- Per-hour row count (`COUNT(*) ... GROUP BY EXTRACT(HOUR FROM
last_played)`, with `COALESCE(count, 0)` over `generate_series(0, 23)`). -/
def hourCount (db : DB) (u : String) (h : Nat) : Nat :=
  ((userSongs db u).filter (fun r => r.hourOfDay = h)).length

/-- Total of the 24 hourly counts (`patterns.reduce`). -/
def hourTotal (db : DB) (u : String) : Nat :=
  (Finset.range 24).sum (fun h => hourCount db u h)

/-- JS `x || 1` on a non-negative count: 1 when the count is 0. -/
def orOne (n : Nat) : Nat := if n = 0 then 1 else n

/-- L1-normalised hour-of-day vector entry (`count / (total || 1)`). -/
def hourVec (db : DB) (u : String) (h : Nat) : ℚ :=
  (hourCount db u h : ℚ) / ((orOne (hourTotal db u) : Nat) : ℚ)

/-- Listening-pattern `dotProduct` over the 24 hours. -/
def patternDot (db : DB) (u1 u2 : String) : ℚ :=
  (Finset.range 24).sum (fun h => hourVec db u1 h * hourVec db u2 h)

/-- Listening-pattern squared magnitude of one user. -/
def patternMsq (db : DB) (u : String) : ℚ :=
  (Finset.range 24).sum (fun h => hourVec db u h * hourVec db u h)

/-- Component 4 sub-score: hour-of-day cosine similarity times 10. -/
noncomputable def patternScore (db : DB) (u1 u2 : String) : ℝ :=
  cosineSim (patternDot db u1 u2) (patternMsq db u1) (patternMsq db u2) * 10

/-- SQL `(FLOOR(release_year::numeric / 10) * 10)::integer`. -/
def decadeOf (y : Int) : Int := y.fdiv 10 * 10

/-- Decade of a history row's song, `none` when the song row is absent or its
`release_year` is null (such rows are excluded by the year query). -/
def songDecade (db : DB) (r : HistRow) : Option Int :=
  match db.song r.songId with
  | some s => s.releaseYear.map decadeOf
  | none => none

/-- Aggregated `SUM(play_count)` of one user in one decade. -/
def decadeCount (db : DB) (u : String) (d : Int) : Nat :=
  (((userSongs db u).filter (fun r => songDecade db r = some d)).map (·.playCount)).sum

/-- Decades in which a user has at least one dated play (group keys of the
`user1_decades` / `user2_decades` CTEs). -/
def userDecades (db : DB) (u : String) : Finset Int :=
  ((userSongs db u).filterMap (songDecade db)).toFinset

/-- The `all_decades` CTE: distinct union of both users' decades. -/
def allDecades (db : DB) (u1 u2 : String) : Finset Int :=
  userDecades db u1 ∪ userDecades db u2

/-- The `user1YearTotal` of the ordered call `(u1, u2)`: sum of the
first-named user's counts over the returned `all_decades` rows. -/
def yearTotalFst (db : DB) (u1 u2 : String) : Nat :=
  (allDecades db u1 u2).sum (fun d => decadeCount db u1 d)

/-- Normalised decade-vector entry of the first-named user
(`count / (total || 1)`). -/
def yearVecFst (db : DB) (u1 u2 : String) (d : Int) : ℚ :=
  (decadeCount db u1 d : ℚ) / ((orOne (yearTotalFst db u1 u2) : Nat) : ℚ)

/-- Release-decade `dotProduct` over the `all_decades` rows. -/
def yearDot (db : DB) (u1 u2 : String) : ℚ :=
  (allDecades db u1 u2).sum (fun d => yearVecFst db u1 u2 d * yearVecFst db u2 u1 d)

/-- Release-decade squared magnitude of the first-named user. -/
def yearMsqFst (db : DB) (u1 u2 : String) : ℚ :=
  (allDecades db u1 u2).sum (fun d => yearVecFst db u1 u2 d * yearVecFst db u1 u2 d)

/-- Component 5 sub-score: release-decade cosine similarity times 10. -/
noncomputable def yearScore (db : DB) (u1 u2 : String) : ℝ :=
  cosineSim (yearDot db u1 u2) (yearMsqFst db u1 u2) (yearMsqFst db u2 u1) * 10

/-- The `totalScore` accumulator after all five components. -/
noncomputable def totalScore (db : DB) (u1 u2 : String) : ℝ :=
  ((songScoreQ db u1 u2 : ℚ) : ℝ) + ((artistScoreQ db u1 u2 : ℚ) : ℝ)
    + genreScore db u1 u2 + patternScore db u1 u2 + yearScore db u1 u2

/-- The `maxPossibleScore` accumulator: every component adds its weight
unconditionally (35 + 25 + 20 + 10 + 10). -/
def maxPossibleScore : ℝ := 35 + 25 + 20 + 10 + 10

/-- The `finalScore` returned by `Match.calculateMatchScore` (models/Match.js):
`maxPossibleScore > 0 ? totalScore / maxPossibleScore * 100 : 0`, not
rounded. -/
noncomputable def finalScore (db : DB) (u1 u2 : String) : ℝ :=
  if 0 < maxPossibleScore then totalScore db u1 u2 / maxPossibleScore * 100 else 0

/-- The value returned by the worker's `calculateMatchScore`
(workers/match-calculation.worker.js): the same final score rounded to one
decimal place, `Math.round(finalScore * 10) / 10`. -/
noncomputable def workerFinalScore (db : DB) (u1 u2 : String) : ℝ :=
  ((round (finalScore db u1 u2 * 10) : ℤ) : ℝ) / 10

/-- Modelled from the spec: the sum of the weights of the components
"actually evaluated", each component's weight counted only when its test
population is non-empty (the guard under which the code computes a non-trivial
similarity for that component).  The spec requires the final score to be
normalised by this sum instead of the constant 100. -/
def specContributedWeight (db : DB) (u1 u2 : String) : ℚ :=
  (if (userSongs db u1).length ≠ 0 ∧ (userSongs db u2).length ≠ 0 then 35 else 0)
    + (if totalPlays db u1 ≠ 0 ∨ totalPlays db u2 ≠ 0 then 25 else 0)
    + (if 0 < genreMsqFst db u1 u2 ∧ 0 < genreMsqFst db u2 u1 then 20 else 0)
    + (if 0 < patternMsq db u1 ∧ 0 < patternMsq db u2 then 10 else 0)
    + (if 0 < yearMsqFst db u1 u2 ∧ 0 < yearMsqFst db u2 u1 then 10 else 0)

/-- Cache key written and read by the interactive path
(`Match.getPotentialMatches`): the template
`match:score:${userId}:${match.user_id}` in argument order, without
canonicalisation. -/
def interactiveScoreKey (u c : String) : String :=
  "match:score:" ++ u ++ ":" ++ c

/-- Cache key written by the recalculation worker: the lexicographically
smaller id first (`userId < match.user_id ? ... : ...`). -/
def workerScoreKey (u c : String) : String :=
  "match:score:" ++ (if u < c then u else c) ++ ":" ++ (if u < c then c else u)

/-- Redis score cache: a partial map from key strings to the numeric value
that `parseFloat` recovers from the stored string. -/
def Cache : Type := String → Option ℝ

/-- Cache with no entries. -/
def emptyCache : Cache := fun _ => none

/-- Overwrite one cache key (`SET key value`). -/
def cacheSet (c : Cache) (k : String) (v : ℝ) : Cache :=
  fun k2 => if k2 = k then some v else c k2

/-- Per-candidate score resolution of `Match.getPotentialMatches`: read the
interactive key; on a hit return the parsed cached value, on a miss compute
`calculateMatchScore` (the unrounded final score). -/
noncomputable def getOrComputeInteractive (db : DB) (cache : Cache) (u c : String) : ℝ :=
  match cache (interactiveScoreKey u c) with
  | some v => v
  | none => finalScore db u c

/-- Cache state after the worker has scored the pair: the worker writes its
rounded score under the canonical worker key. -/
noncomputable def workerPreWarm (db : DB) (cache : Cache) (u c : String) : Cache :=
  cacheSet cache (workerScoreKey u c) (workerFinalScore db u c)

/-- Cache state after the interactive path has scored the pair on a miss: it
writes the unrounded score under the interactive key. -/
noncomputable def interactivePreWarm (db : DB) (cache : Cache) (u c : String) : Cache :=
  cacheSet cache (interactiveScoreKey u c) (finalScore db u c)

/-- Row of the `matches` ledger.  The score type is a parameter (the logic
of the upsert does not inspect it). -/
structure MatchRow (α : Type) where
  user1 : String
  user2 : String
  score : α
  status : String

/-- Canonical key order of an unordered pair, the ternary
`user1Id < user2Id ? [user1Id, user2Id] : [user2Id, user1Id]` of
`storeMatchScore`: smaller id first (JS `<` on strings is lexicographic). -/
def canonPair (a b : String) : String × String := if a < b then (a, b) else (b, a)

/-- The `storeMatchScore` upsert (identical in models/Match.js and the
worker): order the pair with the smaller id first, then `INSERT ... ON
CONFLICT (user_id_1, user_id_2) DO UPDATE SET match_score = $4` — update the
existing row with that exact key if present (status untouched), otherwise
append a new row with status `pending`. -/
def storeMatchScore {α : Type} (led : List (MatchRow α)) (u1 u2 : String) (s : α) :
    List (MatchRow α) :=
  if led.any (fun r =>
      decide (r.user1 = (canonPair u1 u2).1 ∧ r.user2 = (canonPair u1 u2).2)) then
    led.map (fun r =>
      if r.user1 = (canonPair u1 u2).1 ∧ r.user2 = (canonPair u1 u2).2 then
        { r with score := s }
      else r)
  else led ++ [⟨(canonPair u1 u2).1, (canonPair u1 u2).2, s, "pending"⟩]

/-- Ledger rows that belong to the unordered pair `{a, b}` (either key
order). -/
def pairRows {α : Type} (led : List (MatchRow α)) (a b : String) : List (MatchRow α) :=
  led.filter (fun r => decide ((r.user1 = a ∧ r.user2 = b) ∨ (r.user1 = b ∧ r.user2 = a)))

/-- Invariant of the match ledger for one unordered pair: exactly one row,
keyed canonically. -/
def pairLedgerInv {α : Type} (led : List (MatchRow α)) (a b : String) : Prop :=
  ∃ r0, pairRows led a b = [r0]
    ∧ r0.user1 = (canonPair a b).1 ∧ r0.user2 = (canonPair a b).2

/-- Replay a sequence of `storeMatchScore` calls for the pair `{a, b}`: each
operation carries the argument order (`true` for `(a, b)`, `false` for
`(b, a)`) and the score value. -/
def applyStores {α : Type} (a b : String) (ops : List (Bool × α))
    (led : List (MatchRow α)) : List (MatchRow α) :=
  ops.foldl (fun acc op =>
    if op.1 then storeMatchScore acc a b op.2 else storeMatchScore acc b a op.2) led

/-- State touched by one user's drain step in the match-calculation worker:
the Redis pending set `match:recalculate` and the list of (user, candidate)
pairs whose scores were computed and stored so far. -/
structure WorkerState where
  pending : List String
  stored : List (String × String)

/-- The inner candidate loop of the worker: each candidate is attempted in
order; a candidate whose scoring succeeds (flag `true`) appends a stored
pair, a failing candidate is caught, logged and skipped, and the loop
continues with the next candidate. -/
def processCandidates (u : String) (cands : List (String × Bool))
    (stored : List (String × String)) : List (String × String) :=
  cands.foldl (fun acc c => if c.2 then acc ++ [(u, c.1)] else acc) stored

/-- One user's step of the worker drain loop: when the potential-matches
query succeeds (`queryOk`), run the candidate loop and then unconditionally
`SREM` the user from the pending set; when the query itself fails, the outer
catch leaves the state unchanged and moves on. -/
def drainUser (st : WorkerState) (u : String) (queryOk : Bool)
    (cands : List (String × Bool)) : WorkerState :=
  if queryOk then
    { pending := st.pending.erase u
      stored := processCandidates u cands st.stored }
  else st

/-- Row of `user_preferences` with its nullable columns. -/
structure PrefsRow where
  preferredGender : Option String
  minAge : Option Nat
  maxAge : Option Nat
  maxDistance : Option Nat
  isVisible : Bool

/-- JS `x || d` on a nullable numeric column: the default replaces both null
and 0 (both falsy). -/
def jsOrNat (v : Option Nat) (d : Nat) : Nat :=
  match v with
  | none => d
  | some x => if x = 0 then d else x

/-- Effective preference values after defaulting. -/
structure EffPrefs where
  preferredGender : Option String
  minAge : Nat
  maxAge : Nat
  maxDistance : Nat

/-- The preference/location check of `Match.getPotentialMatches`: the query
is rooted at `user_preferences` LEFT JOINed with `user_locations`, so a user
without a preferences row yields zero rows and the check
`rows.length === 0 || !rows[0].latitude` throws; with a row present it also
throws when the latitude is null, and otherwise the query parameters get the
JS defaults `min_age || 18`, `max_age || 100`, `max_distance || 100`. -/
def getPotentialMatchesPrefs (prefsRow : Option PrefsRow) (loc : Option (ℚ × ℚ)) :
    Except String (EffPrefs × (ℚ × ℚ)) :=
  match prefsRow with
  | none => .error "User preferences or location not found"
  | some p =>
    match loc with
    | none => .error "User preferences or location not found"
    | some l =>
      .ok (⟨p.preferredGender, jsOrNat p.minAge 18, jsOrNat p.maxAge 100,
        jsOrNat p.maxDistance 100⟩, l)

/-- Default preferences object of the `/matches/:userId` route
(`rows[0] || { preferred_gender: null, min_age: 18, max_age: 100,
max_distance: 100 }`). -/
def matchesRouteDefaults : PrefsRow := ⟨none, some 18, some 100, some 100, true⟩

/-- The preference/location check of the `/matches/:userId` route
(api-routes.js): a missing preferences row is replaced by the defaults
object, and only a missing location row is an error. -/
def matchesRouteCheck (prefsRow : Option PrefsRow) (loc : Option (ℚ × ℚ)) :
    Except String (PrefsRow × (ℚ × ℚ)) :=
  let p := prefsRow.getD matchesRouteDefaults
  match loc with
  | none => .error "User location not found"
  | some l => .ok (p, l)

/-- The preference/location check of the `/recommendations/users` route:
location first (missing is an error), then defaults
`preferences?.minAge || 18`, `maxAge || 100`, and `maxDistance || 20` (the
smaller discovery radius). -/
def usersRouteCheck (loc : Option (ℚ × ℚ)) (prefsRow : Option PrefsRow) :
    Except String EffPrefs :=
  match loc with
  | none => .error "User location not found"
  | some _ =>
    .ok ⟨prefsRow.bind PrefsRow.preferredGender,
      jsOrNat (prefsRow.bind PrefsRow.minAge) 18,
      jsOrNat (prefsRow.bind PrefsRow.maxAge) 100,
      jsOrNat (prefsRow.bind PrefsRow.maxDistance) 20⟩

/-- Candidate row of the three-way join `users JOIN user_locations JOIN
user_preferences` used by both candidate queries: user id, gender, derived
age (`EXTRACT(YEAR FROM AGE(CURRENT_DATE, birth_date))` at the snapshot),
the candidate's `is_visible`, and coordinates. -/
structure CandRow where
  id : String
  gender : String
  age : Nat
  visible : Bool
  lat : ℚ
  lon : ℚ

/-- Geo snapshot: the joined candidate table in table order plus the
requesting user's own preference and location rows. -/
structure GeoDB where
  users : List CandRow
  prefs : String → Option PrefsRow
  loc : String → Option (ℚ × ℚ)

/-- Degrees to radians (SQL `radians(x)`). -/
noncomputable def rad (x : ℚ) : ℝ := (x : ℝ) * Real.pi / 180

/-- The distance expression of both candidate queries:
`6371 * acos(cos(radians(lat1)) * cos(radians(lat2)) *
cos(radians(lon2) - radians(lon1)) + sin(radians(lat1)) *
sin(radians(lat2)))`. -/
noncomputable def distSql (lat1 lon1 lat2 lon2 : ℚ) : ℝ :=
  6371 * Real.arccos (Real.cos (rad lat1) * Real.cos (rad lat2) *
    Real.cos (rad lon2 - rad lon1) + Real.sin (rad lat1) * Real.sin (rad lat2))

/-- The WHERE clause shared by both candidate queries: not the requester,
candidate visible, gender wildcard-or-equal, age between the effective
bounds, and distance within the effective radius. -/
noncomputable def eligibleW (me : String) (p : EffPrefs) (lat lon : ℚ) (u : CandRow) : Bool :=
  decide (u.id ≠ me) && u.visible &&
    decide (p.preferredGender = none ∨ p.preferredGender = some u.gender) &&
    decide (p.minAge ≤ u.age ∧ u.age ≤ p.maxAge) &&
    decide (distSql lat lon u.lat u.lon ≤ (p.maxDistance : ℝ))

/-- Effective preferences of the worker query: SQL
`COALESCE(min_age, 18)`, `COALESCE(max_age, 100)`,
`COALESCE(max_distance, 100)` (COALESCE replaces only null, not 0). -/
def workerEffPrefs (p : PrefsRow) : EffPrefs :=
  ⟨p.preferredGender, p.minAge.getD 18, p.maxAge.getD 100, p.maxDistance.getD 100⟩

/-- The worker's potential-matches query: the requester's preference and
location rows enter through CTEs that are CROSS JOINed in (no rows when
either is missing), the WHERE filter runs in table order, each kept row is
annotated with its distance, and `LIMIT 50` caps the result — with no ORDER
BY. -/
noncomputable def findCandidatesWorker (g : GeoDB) (me : String) : List (String × ℝ) :=
  match g.prefs me, g.loc me with
  | some p, some l =>
    (((g.users.filter (eligibleW me (workerEffPrefs p) l.1 l.2)).map
      (fun u => (u.id, distSql l.1 l.2 u.lat u.lon))).take 50)
  | _, _ => []

/-- The candidate query of `Match.getPotentialMatches`: after the
preference/location check, the WHERE filter runs in table order and every
kept row is returned with its distance — with no ORDER BY and no LIMIT. -/
noncomputable def findCandidatesInteractive (g : GeoDB) (me : String) :
    Except String (List (String × ℝ)) :=
  match getPotentialMatchesPrefs (g.prefs me) (g.loc me) with
  | .error e => .error e
  | .ok (p, l) =>
    .ok ((g.users.filter (eligibleW me p l.1 l.2)).map
      (fun u => (u.id, distSql l.1 l.2 u.lat u.lon)))

/-- Entry of the `matchResults` array built by `Match.getPotentialMatches`. -/
structure MatchResult where
  userId : String
  score : ℝ
  musicScore : ℝ
  distance : ℝ

/-- One iteration of the scoring loop of `Match.getPotentialMatches`: cache
read under the interactive key, compute-and-cache on a miss, then — only when
the music score passes `minScore` — push the result with the
distance-adjusted score `matchScore * 0.8 + max(0, 1 - distance/maxDistance)
* 100 * 0.2`. -/
noncomputable def scoreLoopStep (db : DB) (me : String) (minScore : ℝ) (maxDist : Nat)
    (acc : Cache × List MatchResult) (cand : String × ℝ) : Cache × List MatchResult :=
  let key := interactiveScoreKey me cand.1
  let s : ℝ :=
    match acc.1 key with
    | some v => v
    | none => finalScore db me cand.1
  let cache2 : Cache :=
    match acc.1 key with
    | some _ => acc.1
    | none => cacheSet acc.1 key (finalScore db me cand.1)
  if minScore ≤ s then
    (cache2, acc.2 ++ [⟨cand.1, s * 0.8 + max 0 (1 - cand.2 / (maxDist : ℝ)) * 100 * 0.2,
      s, cand.2⟩])
  else (cache2, acc.2)

/-- The tail of `Match.getPotentialMatches`: score every candidate the query
returned, then `matchResults.sort((a, b) => b.score - a.score)` (descending
adjusted score) and `slice(0, limit)`. -/
noncomputable def getPotentialMatchesResults (db : DB) (g : GeoDB) (cache : Cache)
    (me : String) (minScore : ℝ) (limit : Nat) : Except String (List MatchResult) :=
  match findCandidatesInteractive g me with
  | .error e => .error e
  | .ok cands =>
    let maxDist := jsOrNat ((g.prefs me).bind PrefsRow.maxDistance) 100
    let res := (cands.foldl (scoreLoopStep db me minScore maxDist) (cache, [])).2
    .ok ((res.mergeSort (fun a b => decide (b.score ≤ a.score))).take limit)

/-- Song reference as carried by the recommendation lists (identified by song
id). -/
structure SongRef where
  id : String
deriving DecidableEq

/-- The deduplication loop of the `/recommendations/songs` route: walk the
combined list, keep the first occurrence of each song id, and stop as soon as
`limit` entries are kept. -/
def uniqueRecsAux (limit : Nat) (seen : List String) (acc : List SongRef) :
    List SongRef → List SongRef
  | [] => acc
  | s :: rest =>
    if s.id ∈ seen then uniqueRecsAux limit seen acc rest
    else if limit ≤ (acc ++ [s]).length then acc ++ [s]
    else uniqueRecsAux limit (s.id :: seen) (acc ++ [s]) rest

/-- The `Song.getPopular(limit, excludeSongIds)` query (models/Song.js):
from the popularity-ordered song list (`ORDER BY listener_count DESC,
song_name`), drop the excluded ids and take the first `n`. -/
def getPopular (popularRanked : List SongRef) (n : Nat) (excluded : List String) :
    List SongRef :=
  (popularRanked.filter (fun s => decide (s.id ∉ excluded))).take n

/-- The established-user branch of the `/recommendations/songs` route
(routes/recommendation.routes.js): `combinedRecs = [...contentRecs]` — the
`getCollaborativeSongRecommendations` call is commented out, so the
`collabRecs` argument (what that call would return) is unused — deduplicate
up to `limit`, then, when short of `limit`, pad with popular songs excluding
the user's heard song ids and the already selected ids. -/
def establishedSongRecs (contentRecs collabRecs : List SongRef)
    (heardSongIds : List String) (popularRanked : List SongRef) (limit : Nat) :
    List SongRef :=
  let combinedRecs := contentRecs
  let uniqueRecs := uniqueRecsAux limit [] [] combinedRecs
  if uniqueRecs.length < limit then
    uniqueRecs ++ getPopular popularRanked (limit - uniqueRecs.length)
      (heardSongIds ++ uniqueRecs.map SongRef.id)
  else uniqueRecs

/-- Claim C10's reading of the established-user branch, for comparison with
`establishedSongRecs`: content-based and collaborative candidates are
combined before deduplication, then padded the same way. -/
def claimEstablishedSongRecs (contentRecs collabRecs : List SongRef)
    (heardSongIds : List String) (popularRanked : List SongRef) (limit : Nat) :
    List SongRef :=
  let combinedRecs := contentRecs ++ collabRecs
  let uniqueRecs := uniqueRecsAux limit [] [] combinedRecs
  if uniqueRecs.length < limit then
    uniqueRecs ++ getPopular popularRanked (limit - uniqueRecs.length)
      (heardSongIds ++ uniqueRecs.map SongRef.id)
  else uniqueRecs

/-- The `isNewUser` threshold (new-user-recommendation.js): fewer than 5
listening events. -/
def isNewUser (listenCount : Nat) : Bool := listenCount < 5

/-- Concrete signal snapshot: users `a` and `b` each played the
single-artist song `s1` once at hour 0; no genre preferences, no release
year. -/
def dbShared : DB :=
  ⟨fun u => if u = "a" ∨ u = "b" then [⟨"s1", 1, 0⟩] else [],
   fun s => if s = "s1" then some ⟨["A"], none⟩ else none,
   fun _ => []⟩

/-- Concrete signal snapshot: users `a` and `b` each played the three-artist
song `s1` (credits `A,B,C`) five times at hour 0; no genre preferences, no
release year. -/
def dbMulti : DB :=
  ⟨fun u => if u = "a" ∨ u = "b" then [⟨"s1", 5, 0⟩] else [],
   fun s => if s = "s1" then some ⟨["A", "B", "C"], none⟩ else none,
   fun _ => []⟩

/-- Concrete signal snapshot: user `a` played `s1` once, user `b` played
`s1` twice and the catalogue-less `s2`, `s3` once each, all at hour 0; no
genre preferences, no release year. -/
def dbRound : DB :=
  ⟨fun u =>
    if u = "a" then [⟨"s1", 1, 0⟩]
    else if u = "b" then [⟨"s1", 2, 0⟩, ⟨"s2", 1, 0⟩, ⟨"s3", 1, 0⟩]
    else [],
   fun s => if s = "s1" then some ⟨["A"], none⟩ else none,
   fun _ => []⟩

/-- Ids of 21 candidate users. -/
def capIds : List String :=
  ["c01", "c02", "c03", "c04", "c05", "c06", "c07", "c08", "c09", "c10",
   "c11", "c12", "c13", "c14", "c15", "c16", "c17", "c18", "c19", "c20", "c21"]

/-- Geo snapshot with 21 visible candidates co-located with requester `z`
(all constraints trivially satisfied, distance 0). -/
def gdbCap : GeoDB :=
  ⟨capIds.map (fun i => ⟨i, "f", 30, true, 0, 0⟩),
   fun u => if u = "z" then some ⟨none, none, none, none, true⟩ else none,
   fun u => if u = "z" then some (0, 0) else none⟩

/-- Geo snapshot for the ordering test: requester `z` at (0, 0) with a
7000 km radius; candidate `far` sits at longitude 60 (6371·π/3 km away) and
appears in the table before the co-located candidate `near`. -/
def gdbSort : GeoDB :=
  ⟨[⟨"far", "f", 30, true, 0, 60⟩, ⟨"near", "f", 30, true, 0, 0⟩],
   fun u => if u = "z" then some ⟨none, none, none, some 7000, true⟩ else none,
   fun u => if u = "z" then some (0, 0) else none⟩

/-- Geo snapshot with a requester but no candidate rows at all. -/
def gdbEmpty : GeoDB :=
  ⟨[], fun u => if u = "z" then some ⟨none, none, none, none, true⟩ else none,
   fun u => if u = "z" then some (0, 0) else none⟩

/-- Claim C8's ordering property for a candidate list: the reported distances
are ascending. -/
def ascendingByDistance (l : List (String × ℝ)) : Prop :=
  l.Pairwise (fun p q => p.2 ≤ q.2)

/-! Helper lemmas. -/

theorem sum_map_add {α M : Type} [AddCommMonoid M] (l : List α) (f g : α → M) :
    (l.map (fun x => f x + g x)).sum = (l.map f).sum + (l.map g).sum := by
  induction l with
  | nil => simp
  | cons a t ih => simp only [List.map_cons, List.sum_cons, ih, add_add_add_comm]

theorem sum_comm_list {α β M : Type} [AddCommMonoid M] (l1 : List α) (l2 : List β)
    (f : α → β → M) :
    (l1.map (fun a => (l2.map (fun b => f a b)).sum)).sum
      = (l2.map (fun b => (l1.map (fun a => f a b)).sum)).sum := by
  induction l1 with
  | nil => simp
  | cons a t ih =>
    simp only [List.map_cons, List.sum_cons, ih, ← sum_map_add]

theorem commonSongsCount_comm (db : DB) (u1 u2 : String) :
    commonSongsCount db u1 u2 = commonSongsCount db u2 u1 := by
  unfold commonSongsCount
  rw [sum_comm_list]
  apply congrArg
  apply List.map_congr_left
  intro b _
  apply congrArg
  apply List.map_congr_left
  intro a _
  by_cases h : a.songId = b.songId
  · rw [if_pos h, if_pos h.symm]
  · rw [if_neg h, if_neg (fun h2 => h h2.symm)]

theorem commonArtistWeight_comm (db : DB) (u1 u2 : String) :
    commonArtistWeight db u1 u2 = commonArtistWeight db u2 u1 := by
  unfold commonArtistWeight
  rw [sum_comm_list]
  apply congrArg
  apply List.map_congr_left
  intro t2 _
  apply congrArg
  apply List.map_congr_left
  intro t1 _
  by_cases h : sqlTrim t1 = sqlTrim t2
  · rw [if_pos h, if_pos h.symm, Nat.min_comm]
  · rw [if_neg h, if_neg (fun h2 => h h2.symm)]

theorem songJaccard_comm (db : DB) (u1 u2 : String) :
    songJaccard db u1 u2 = songJaccard db u2 u1 := by
  unfold songJaccard
  rw [commonSongsCount_comm db u1 u2]
  exact if_congr and_comm (by rw [add_comm ((userSongs db u1).length : ℚ)]) rfl

theorem artistScoreQ_comm (db : DB) (u1 u2 : String) :
    artistScoreQ db u1 u2 = artistScoreQ db u2 u1 := by
  unfold artistScoreQ
  rw [commonArtistWeight_comm db u1 u2]
  exact if_congr or_comm (by rw [Nat.max_comm]) rfl

theorem cosineSim_swap (d a b : ℚ) : cosineSim d a b = cosineSim d b a := by
  unfold cosineSim
  exact if_congr and_comm (by rw [mul_comm]) rfl

theorem allGenres_comm (db : DB) (u1 u2 : String) :
    allGenres db u1 u2 = allGenres db u2 u1 :=
  Finset.union_comm _ _

theorem genreDot_comm (db : DB) (u1 u2 : String) :
    genreDot db u1 u2 = genreDot db u2 u1 := by
  unfold genreDot
  rw [allGenres_comm]
  exact Finset.sum_congr rfl (fun g _ => mul_comm _ _)

theorem genreScore_comm (db : DB) (u1 u2 : String) :
    genreScore db u1 u2 = genreScore db u2 u1 := by
  unfold genreScore
  rw [genreDot_comm db u1 u2, cosineSim_swap]

theorem patternDot_comm (db : DB) (u1 u2 : String) :
    patternDot db u1 u2 = patternDot db u2 u1 := by
  unfold patternDot
  exact Finset.sum_congr rfl (fun h _ => mul_comm _ _)

theorem patternScore_comm (db : DB) (u1 u2 : String) :
    patternScore db u1 u2 = patternScore db u2 u1 := by
  unfold patternScore
  rw [patternDot_comm db u1 u2, cosineSim_swap]

theorem allDecades_comm (db : DB) (u1 u2 : String) :
    allDecades db u1 u2 = allDecades db u2 u1 :=
  Finset.union_comm _ _

theorem yearDot_comm (db : DB) (u1 u2 : String) :
    yearDot db u1 u2 = yearDot db u2 u1 := by
  unfold yearDot
  rw [allDecades_comm]
  exact Finset.sum_congr rfl (fun d _ => mul_comm _ _)

theorem yearScore_comm (db : DB) (u1 u2 : String) :
    yearScore db u1 u2 = yearScore db u2 u1 := by
  unfold yearScore
  rw [yearDot_comm db u1 u2, cosineSim_swap]

theorem songScoreQ_comm (db : DB) (u1 u2 : String) :
    songScoreQ db u1 u2 = songScoreQ db u2 u1 := by
  unfold songScoreQ
  rw [songJaccard_comm db u1 u2]

theorem totalScore_comm (db : DB) (u1 u2 : String) :
    totalScore db u1 u2 = totalScore db u2 u1 := by
  unfold totalScore
  rw [songScoreQ_comm db u1 u2, artistScoreQ_comm db u1 u2, genreScore_comm db u1 u2,
    patternScore_comm db u1 u2, yearScore_comm db u1 u2]

theorem finalScore_comm (db : DB) (u1 u2 : String) :
    finalScore db u1 u2 = finalScore db u2 u1 := by
  unfold finalScore
  rw [totalScore_comm db u1 u2]

theorem finalScore_eq_totalScore (db : DB) (u1 u2 : String) :
    finalScore db u1 u2 = totalScore db u1 u2 := by
  unfold finalScore maxPossibleScore
  rw [if_pos (by norm_num)]
  ring

theorem cosineSim_zero_left (d m : ℚ) : cosineSim d 0 m = 0 := by
  simp [cosineSim]

theorem cosineSim_one (s : ℚ) (hs : 0 < s) : cosineSim s s s = 1 := by
  have hs' : (0 : ℝ) < (s : ℝ) := by exact_mod_cast hs
  unfold cosineSim
  rw [if_pos ⟨Real.sqrt_pos.mpr hs', Real.sqrt_pos.mpr hs'⟩,
    Real.mul_self_sqrt hs'.le, div_self hs'.ne']

theorem hourCount_of_all_zero (db : DB) (u : String)
    (hall : ∀ r ∈ db.history u, r.hourOfDay = 0) :
    ∀ h : Nat, h ≠ 0 → hourCount db u h = 0 := by
  intro h hne
  unfold hourCount userSongs
  rw [List.length_eq_zero, List.filter_eq_nil_iff]
  intro r hr
  simp only [decide_eq_true_eq, hall r hr]
  exact fun hh => hne hh.symm

theorem hourCount_zero_of_all_zero (db : DB) (u : String)
    (hall : ∀ r ∈ db.history u, r.hourOfDay = 0) :
    hourCount db u 0 = (db.history u).length := by
  unfold hourCount userSongs
  congr 1
  apply List.filter_eq_self.mpr
  intro r hr
  simp [hall r hr]

theorem hourTotal_of_all_zero (db : DB) (u : String)
    (hall : ∀ r ∈ db.history u, r.hourOfDay = 0) :
    hourTotal db u = (db.history u).length := by
  unfold hourTotal
  rw [Finset.sum_eq_single 0]
  · exact hourCount_zero_of_all_zero db u hall
  · intro b _ hb
    exact hourCount_of_all_zero db u hall b hb
  · intro h0
    exact absurd (Finset.mem_range.mpr (by norm_num)) h0

theorem hourVec_of_all_zero (db : DB) (u : String)
    (hall : ∀ r ∈ db.history u, r.hourOfDay = 0) (hne : db.history u ≠ [])
    (h : Nat) : hourVec db u h = if h = 0 then 1 else 0 := by
  have hlen : (db.history u).length ≠ 0 := fun hl => hne (List.length_eq_zero.mp hl)
  unfold hourVec orOne
  rw [hourTotal_of_all_zero db u hall, if_neg hlen]
  by_cases h0 : h = 0
  · subst h0
    rw [hourCount_zero_of_all_zero db u hall, if_pos rfl, div_self]
    exact_mod_cast hlen
  · rw [hourCount_of_all_zero db u hall h h0, if_neg h0]
    simp

theorem sum_range24_ite_one :
    (Finset.range 24).sum
      (fun h => (if h = 0 then (1 : ℚ) else 0) * (if h = 0 then 1 else 0)) = 1 := by
  have step : ∀ h : Nat, (if h = 0 then (1 : ℚ) else 0) * (if h = 0 then 1 else 0)
      = (if h = 0 then (1 : ℚ) else 0) := by
    intro h
    by_cases h0 : h = 0
    · rw [if_pos h0, mul_one]
    · rw [if_neg h0, mul_zero]
  rw [Finset.sum_congr rfl (fun h _ => step h),
    Finset.sum_ite_eq' (Finset.range 24) 0 (fun _ => (1 : ℚ)),
    if_pos (Finset.mem_range.mpr (by norm_num))]

theorem patternMsq_of_all_zero (db : DB) (u : String)
    (hall : ∀ r ∈ db.history u, r.hourOfDay = 0) (hne : db.history u ≠ []) :
    patternMsq db u = 1 := by
  unfold patternMsq
  rw [Finset.sum_congr rfl (fun h _ => by
    rw [hourVec_of_all_zero db u hall hne h])]
  exact sum_range24_ite_one

theorem patternDot_of_all_zero (db : DB) (u1 u2 : String)
    (hall1 : ∀ r ∈ db.history u1, r.hourOfDay = 0) (hne1 : db.history u1 ≠ [])
    (hall2 : ∀ r ∈ db.history u2, r.hourOfDay = 0) (hne2 : db.history u2 ≠ []) :
    patternDot db u1 u2 = 1 := by
  unfold patternDot
  rw [Finset.sum_congr rfl (fun h _ => by
    rw [hourVec_of_all_zero db u1 hall1 hne1 h, hourVec_of_all_zero db u2 hall2 hne2 h])]
  exact sum_range24_ite_one

theorem patternScore_of_all_zero (db : DB) (u1 u2 : String)
    (hall1 : ∀ r ∈ db.history u1, r.hourOfDay = 0) (hne1 : db.history u1 ≠ [])
    (hall2 : ∀ r ∈ db.history u2, r.hourOfDay = 0) (hne2 : db.history u2 ≠ []) :
    patternScore db u1 u2 = 10 := by
  unfold patternScore
  rw [patternDot_of_all_zero db u1 u2 hall1 hne1 hall2 hne2,
    patternMsq_of_all_zero db u1 hall1 hne1, patternMsq_of_all_zero db u2 hall2 hne2,
    cosineSim_one 1 (by norm_num), one_mul]

theorem genreScore_of_empty (db : DB) (u1 u2 : String)
    (h1 : db.genreRows u1 = []) (h2 : db.genreRows u2 = []) :
    genreScore db u1 u2 = 0 := by
  have hg : allGenres db u1 u2 = ∅ := by simp [allGenres, h1, h2]
  have hg2 : allGenres db u2 u1 = ∅ := by simp [allGenres, h1, h2]
  unfold genreScore genreDot genreMsqFst
  rw [hg, hg2, Finset.sum_empty, Finset.sum_empty, Finset.sum_empty,
    cosineSim_zero_left, zero_mul]

theorem yearScore_of_empty (db : DB) (u1 u2 : String)
    (h1 : userDecades db u1 = ∅) (h2 : userDecades db u2 = ∅) :
    yearScore db u1 u2 = 0 := by
  have hd : allDecades db u1 u2 = ∅ := by simp [allDecades, h1, h2]
  have hd2 : allDecades db u2 u1 = ∅ := by simp [allDecades, h1, h2]
  unfold yearScore yearDot yearMsqFst
  rw [hd, hd2, Finset.sum_empty, Finset.sum_empty, Finset.sum_empty,
    cosineSim_zero_left, zero_mul]

theorem rad_zero : rad 0 = 0 := by
  simp [rad]

theorem rad_sixty : rad 60 = Real.pi / 3 := by
  unfold rad
  rw [show ((60 : ℚ) : ℝ) = 60 by norm_num]
  ring

theorem distSql_self (lat lon : ℚ) : distSql lat lon lat lon = 0 := by
  unfold distSql
  rw [sub_self, Real.cos_zero, mul_one,
    show Real.cos (rad lat) * Real.cos (rad lat) + Real.sin (rad lat) * Real.sin (rad lat)
      = 1 from by linear_combination Real.sin_sq_add_cos_sq (rad lat),
    Real.arccos_one, mul_zero]

theorem distSql_far : distSql 0 0 0 60 = 6371 * (Real.pi / 3) := by
  unfold distSql
  rw [rad_zero, rad_sixty, sub_zero, Real.cos_zero, Real.sin_zero]
  rw [show (1 : ℝ) * 1 * Real.cos (Real.pi / 3) + 0 * 0 = Real.cos (Real.pi / 3) by ring]
  rw [Real.arccos_cos (by positivity) (by linarith [Real.pi_pos])]

theorem distSql_far_le : distSql 0 0 0 60 ≤ 7000 := by
  rw [distSql_far]
  nlinarith [Real.pi_lt_d2]

theorem distSql_far_pos : 0 < distSql 0 0 0 60 := by
  rw [distSql_far]
  positivity

theorem songScoreQ_dbShared : songScoreQ dbShared "a" "b" = 35 := by
  unfold songScoreQ songJaccard
  rw [if_pos (show (userSongs dbShared "a").length ≠ 0 ∧ (userSongs dbShared "b").length ≠ 0
      from by decide),
    show commonSongsCount dbShared "a" "b" = 1 from by decide,
    show (userSongs dbShared "a").length = 1 from by decide,
    show (userSongs dbShared "b").length = 1 from by decide]
  norm_num

theorem artistScoreQ_dbShared : artistScoreQ dbShared "a" "b" = 25 := by
  unfold artistScoreQ
  rw [if_pos (show totalPlays dbShared "a" ≠ 0 ∨ totalPlays dbShared "b" ≠ 0
      from by decide),
    show commonArtistWeight dbShared "a" "b" = 1 from by decide,
    show max (totalPlays dbShared "a") (totalPlays dbShared "b") = 1 from by decide]
  norm_num

theorem totalScore_dbShared : totalScore dbShared "a" "b" = 70 := by
  unfold totalScore
  rw [songScoreQ_dbShared, artistScoreQ_dbShared,
    genreScore_of_empty dbShared "a" "b" rfl rfl,
    patternScore_of_all_zero dbShared "a" "b" (by decide) (by decide) (by decide) (by decide),
    yearScore_of_empty dbShared "a" "b" (by decide) (by decide)]
  norm_num

theorem finalScore_dbShared : finalScore dbShared "a" "b" = 70 := by
  rw [finalScore_eq_totalScore, totalScore_dbShared]

theorem songScoreQ_dbMulti : songScoreQ dbMulti "a" "b" = 35 := by
  unfold songScoreQ songJaccard
  rw [if_pos (show (userSongs dbMulti "a").length ≠ 0 ∧ (userSongs dbMulti "b").length ≠ 0
      from by decide),
    show commonSongsCount dbMulti "a" "b" = 1 from by decide,
    show (userSongs dbMulti "a").length = 1 from by decide,
    show (userSongs dbMulti "b").length = 1 from by decide]
  norm_num

theorem artistScoreQ_dbMulti : artistScoreQ dbMulti "a" "b" = 75 := by
  unfold artistScoreQ
  rw [if_pos (show totalPlays dbMulti "a" ≠ 0 ∨ totalPlays dbMulti "b" ≠ 0
      from by decide),
    show commonArtistWeight dbMulti "a" "b" = 15 from by decide,
    show max (totalPlays dbMulti "a") (totalPlays dbMulti "b") = 5 from by decide]
  norm_num

theorem totalScore_dbMulti : totalScore dbMulti "a" "b" = 120 := by
  unfold totalScore
  rw [songScoreQ_dbMulti, artistScoreQ_dbMulti,
    genreScore_of_empty dbMulti "a" "b" rfl rfl,
    patternScore_of_all_zero dbMulti "a" "b" (by decide) (by decide) (by decide) (by decide),
    yearScore_of_empty dbMulti "a" "b" (by decide) (by decide)]
  norm_num

theorem finalScore_dbMulti : finalScore dbMulti "a" "b" = 120 := by
  rw [finalScore_eq_totalScore, totalScore_dbMulti]

theorem songScoreQ_dbRound : songScoreQ dbRound "a" "b" = 35 / 3 := by
  unfold songScoreQ songJaccard
  rw [if_pos (show (userSongs dbRound "a").length ≠ 0 ∧ (userSongs dbRound "b").length ≠ 0
      from by decide),
    show commonSongsCount dbRound "a" "b" = 1 from by decide,
    show (userSongs dbRound "a").length = 1 from by decide,
    show (userSongs dbRound "b").length = 3 from by decide]
  norm_num

theorem artistScoreQ_dbRound : artistScoreQ dbRound "a" "b" = 25 / 4 := by
  unfold artistScoreQ
  rw [if_pos (show totalPlays dbRound "a" ≠ 0 ∨ totalPlays dbRound "b" ≠ 0
      from by decide),
    show commonArtistWeight dbRound "a" "b" = 1 from by decide,
    show max (totalPlays dbRound "a") (totalPlays dbRound "b") = 4 from by decide]
  norm_num

theorem totalScore_dbRound : totalScore dbRound "a" "b" = 335 / 12 := by
  unfold totalScore
  rw [songScoreQ_dbRound, artistScoreQ_dbRound,
    genreScore_of_empty dbRound "a" "b" rfl rfl,
    patternScore_of_all_zero dbRound "a" "b" (by decide) (by decide) (by decide) (by decide),
    yearScore_of_empty dbRound "a" "b" (by decide) (by decide)]
  push_cast
  norm_num

theorem finalScore_dbRound : finalScore dbRound "a" "b" = 335 / 12 := by
  rw [finalScore_eq_totalScore, totalScore_dbRound]

theorem workerFinalScore_dbRound : workerFinalScore dbRound "a" "b" = 279 / 10 := by
  unfold workerFinalScore
  rw [finalScore_dbRound, show (335 : ℝ) / 12 * 10 = 3350 / 12 by ring, round_eq]
  norm_num

theorem canonPair_comm {a b : String} (h : a ≠ b) : canonPair b a = canonPair a b := by
  unfold canonPair
  rcases lt_trichotomy a b with hab | hab | hab
  · rw [if_neg (lt_asymm hab), if_pos hab]
  · exact absurd hab h
  · rw [if_pos hab, if_neg (lt_asymm hab)]

theorem canonPair_cases (a b : String) :
    canonPair a b = (a, b) ∨ canonPair a b = (b, a) := by
  unfold canonPair
  by_cases h : a < b
  · exact Or.inl (if_pos h)
  · exact Or.inr (if_neg h)

theorem mem_pairRows {α : Type} {led : List (MatchRow α)} {a b : String} {r : MatchRow α} :
    r ∈ pairRows led a b
      ↔ r ∈ led ∧ ((r.user1 = a ∧ r.user2 = b) ∨ (r.user1 = b ∧ r.user2 = a)) := by
  unfold pairRows
  rw [List.mem_filter]
  simp

theorem canonRow_pairPred {α : Type} (a b : String) (r : MatchRow α)
    (h1 : r.user1 = (canonPair a b).1) (h2 : r.user2 = (canonPair a b).2) :
    (r.user1 = a ∧ r.user2 = b) ∨ (r.user1 = b ∧ r.user2 = a) := by
  rcases canonPair_cases a b with hc | hc <;> rw [hc] at h1 h2
  · exact Or.inl ⟨h1, h2⟩
  · exact Or.inr ⟨h1, h2⟩

theorem canonPair_of_orders {u v a b : String}
    (huv : (u = a ∧ v = b) ∨ (u = b ∧ v = a)) (hab : a ≠ b) :
    canonPair u v = canonPair a b := by
  rcases huv with ⟨h1, h2⟩ | ⟨h1, h2⟩
  · rw [h1, h2]
  · rw [h1, h2]
    exact canonPair_comm hab

theorem storeMatchScore_create {α : Type} (a b u v : String) (s : α)
    (huv : (u = a ∧ v = b) ∨ (u = b ∧ v = a)) (hab : a ≠ b)
    (led : List (MatchRow α)) (h0 : pairRows led a b = []) :
    pairRows (storeMatchScore led u v s) a b
      = [⟨(canonPair a b).1, (canonPair a b).2, s, "pending"⟩] := by
  have hcanon : canonPair u v = canonPair a b := canonPair_of_orders huv hab
  have hnone : ∀ r ∈ led,
      ¬((r.user1 = a ∧ r.user2 = b) ∨ (r.user1 = b ∧ r.user2 = a)) := by
    intro r hr hpred
    have hmem : r ∈ pairRows led a b := mem_pairRows.mpr ⟨hr, hpred⟩
    rw [h0] at hmem
    exact absurd hmem (List.not_mem_nil r)
  have hany : (led.any (fun r =>
      decide (r.user1 = (canonPair a b).1 ∧ r.user2 = (canonPair a b).2))) = false := by
    rw [List.any_eq_false]
    intro r hr
    simp only [decide_eq_true_eq]
    intro hk
    exact hnone r hr (canonRow_pairPred a b r hk.1 hk.2)
  have hrowpred := canonRow_pairPred a b
    (⟨(canonPair a b).1, (canonPair a b).2, s, "pending"⟩ : MatchRow α) rfl rfl
  unfold storeMatchScore
  rw [hcanon, hany, if_neg Bool.false_ne_true]
  unfold pairRows at h0 ⊢
  rw [List.filter_append, h0, List.nil_append]
  simp [hrowpred]

theorem pairRows_map_keyPreserving {α : Type} (led : List (MatchRow α)) (a b : String)
    (f : MatchRow α → MatchRow α)
    (hf : ∀ r, (f r).user1 = r.user1 ∧ (f r).user2 = r.user2) :
    pairRows (led.map f) a b = (pairRows led a b).map f := by
  unfold pairRows
  induction led with
  | nil => rfl
  | cons r t ih =>
    have hp : (decide (((f r).user1 = a ∧ (f r).user2 = b)
          ∨ ((f r).user1 = b ∧ (f r).user2 = a)))
        = (decide ((r.user1 = a ∧ r.user2 = b) ∨ (r.user1 = b ∧ r.user2 = a))) := by
      rw [(hf r).1, (hf r).2]
    simp only [List.map_cons, List.filter_cons, hp]
    cases hdec : decide ((r.user1 = a ∧ r.user2 = b) ∨ (r.user1 = b ∧ r.user2 = a))
    · rw [if_neg Bool.false_ne_true, if_neg Bool.false_ne_true, ih]
    · rw [if_pos rfl, if_pos rfl, List.map_cons, ih]

theorem storeMatchScore_update {α : Type} (a b u v : String) (s : α)
    (huv : (u = a ∧ v = b) ∨ (u = b ∧ v = a)) (hab : a ≠ b)
    (led : List (MatchRow α)) (hinv : pairLedgerInv led a b) :
    pairLedgerInv (storeMatchScore led u v s) a b := by
  obtain ⟨r0, hrows, hk1, hk2⟩ := hinv
  have hcanon : canonPair u v = canonPair a b := canonPair_of_orders huv hab
  have hr0mem : r0 ∈ led := by
    have hmem : r0 ∈ pairRows led a b := by
      rw [hrows]
      exact List.mem_singleton.mpr rfl
    exact (mem_pairRows.mp hmem).1
  have hany : (led.any (fun r =>
      decide (r.user1 = (canonPair a b).1 ∧ r.user2 = (canonPair a b).2))) = true := by
    rw [List.any_eq_true]
    exact ⟨r0, hr0mem, by simp [hk1, hk2]⟩
  unfold storeMatchScore
  rw [hcanon, hany, if_pos rfl]
  have hf : ∀ r : MatchRow α,
      ((if r.user1 = (canonPair a b).1 ∧ r.user2 = (canonPair a b).2 then
        { r with score := s } else r)).user1 = r.user1
      ∧ ((if r.user1 = (canonPair a b).1 ∧ r.user2 = (canonPair a b).2 then
        { r with score := s } else r)).user2 = r.user2 := by
    intro r
    by_cases hc : r.user1 = (canonPair a b).1 ∧ r.user2 = (canonPair a b).2
    · rw [if_pos hc]
      exact ⟨rfl, rfl⟩
    · rw [if_neg hc]
      exact ⟨rfl, rfl⟩
  refine ⟨{ r0 with score := s }, ?_, hk1, hk2⟩
  rw [pairRows_map_keyPreserving led a b _ hf, hrows, List.map_singleton,
    if_pos ⟨hk1, hk2⟩]

theorem applyStores_keep {α : Type} (a b : String) (hab : a ≠ b)
    (ops : List (Bool × α)) :
    ∀ led : List (MatchRow α), pairLedgerInv led a b
      → pairLedgerInv (applyStores a b ops led) a b := by
  induction ops with
  | nil => exact fun led h => h
  | cons op rest ih =>
    intro led h
    unfold applyStores
    rw [List.foldl_cons]
    have step : pairLedgerInv
        (if op.1 then storeMatchScore led a b op.2 else storeMatchScore led b a op.2) a b := by
      by_cases hop : op.1 = true
      · rw [if_pos hop]
        exact storeMatchScore_update a b a b op.2 (Or.inl ⟨rfl, rfl⟩) hab led h
      · rw [if_neg hop]
        exact storeMatchScore_update a b b a op.2 (Or.inr ⟨rfl, rfl⟩) hab led h
    exact ih _ step

theorem applyStores_of_empty {α : Type} (a b : String) (hab : a ≠ b)
    (op0 : Bool × α) (rest : List (Bool × α)) (led : List (MatchRow α))
    (h0 : pairRows led a b = []) :
    pairLedgerInv (applyStores a b (op0 :: rest) led) a b := by
  unfold applyStores
  rw [List.foldl_cons]
  have step : pairLedgerInv
      (if op0.1 then storeMatchScore led a b op0.2 else storeMatchScore led b a op0.2) a b := by
    by_cases hop : op0.1 = true
    · rw [if_pos hop]
      exact ⟨_, storeMatchScore_create a b a b op0.2 (Or.inl ⟨rfl, rfl⟩) hab led h0, rfl, rfl⟩
    · rw [if_neg hop]
      exact ⟨_, storeMatchScore_create a b b a op0.2 (Or.inr ⟨rfl, rfl⟩) hab led h0, rfl, rfl⟩
  exact applyStores_keep a b hab rest _ step

theorem string_lt_ab : ("a" : String) < "b" := by
  rw [String.lt_iff_toList_lt]
  decide

theorem processCandidates_eq (u : String) (cands : List (String × Bool))
    (stored : List (String × String)) :
    processCandidates u cands stored
      = stored ++ (cands.filter (fun c => c.2)).map (fun c => (u, c.1)) := by
  induction cands generalizing stored with
  | nil => simp [processCandidates]
  | cons c rest ih =>
    unfold processCandidates at ih ⊢
    simp only [List.foldl_cons, List.filter_cons]
    cases hc : c.2
    · rw [if_neg Bool.false_ne_true, if_neg Bool.false_ne_true]
      exact ih stored
    · rw [if_pos rfl, if_pos rfl, List.map_cons, ih (stored ++ [(u, c.1)]),
        List.append_assoc, List.singleton_append]

theorem eligibleW_true_of (me : String) (p : EffPrefs) (lat lon : ℚ) (u : CandRow)
    (h1 : u.id ≠ me) (h2 : u.visible = true)
    (h3 : p.preferredGender = none ∨ p.preferredGender = some u.gender)
    (h4 : p.minAge ≤ u.age ∧ u.age ≤ p.maxAge)
    (h5 : distSql lat lon u.lat u.lon ≤ (p.maxDistance : ℝ)) :
    eligibleW me p lat lon u = true := by
  unfold eligibleW
  rw [h2]
  simp only [Bool.and_eq_true, decide_eq_true_eq]
  exact ⟨⟨⟨⟨h1, trivial⟩, h3⟩, h4⟩, h5⟩

theorem findCandidatesWorker_length_le (g : GeoDB) (me : String) :
    (findCandidatesWorker g me).length ≤ 50 := by
  unfold findCandidatesWorker
  cases hp : g.prefs me with
  | none => simp
  | some p =>
    cases hl : g.loc me with
    | none => simp
    | some l =>
      simp only
      rw [List.length_take]
      exact min_le_left _ _

theorem findCandidatesWorker_gdbSort :
    findCandidatesWorker gdbSort "z"
      = [("far", distSql 0 0 0 60), ("near", distSql 0 0 0 0)] := by
  have hfar : eligibleW "z" (workerEffPrefs ⟨none, none, none, some 7000, true⟩) 0 0
      ⟨"far", "f", 30, true, 0, 60⟩ = true := by
    apply eligibleW_true_of
    · decide
    · rfl
    · exact Or.inl rfl
    · constructor <;> norm_num [workerEffPrefs]
    · show distSql 0 0 0 60 ≤ (((workerEffPrefs ⟨none, none, none, some 7000, true⟩).maxDistance : Nat) : ℝ)
      have h7 : ((workerEffPrefs ⟨none, none, none, some 7000, true⟩).maxDistance : Nat) = 7000 := rfl
      rw [h7]
      exact_mod_cast distSql_far_le
  have hnear : eligibleW "z" (workerEffPrefs ⟨none, none, none, some 7000, true⟩) 0 0
      ⟨"near", "f", 30, true, 0, 0⟩ = true := by
    apply eligibleW_true_of
    · decide
    · rfl
    · exact Or.inl rfl
    · constructor <;> norm_num [workerEffPrefs]
    · show distSql 0 0 0 0 ≤ (((workerEffPrefs ⟨none, none, none, some 7000, true⟩).maxDistance : Nat) : ℝ)
      rw [distSql_self]
      positivity
  unfold findCandidatesWorker
  simp only [gdbSort, if_true]
  rw [List.filter_cons, hfar, if_pos rfl, List.filter_cons, hnear, if_pos rfl,
    List.filter_nil]
  rfl

theorem not_ascending_gdbSort : ¬ ascendingByDistance (findCandidatesWorker gdbSort "z") := by
  rw [findCandidatesWorker_gdbSort]
  unfold ascendingByDistance
  intro hp
  have hle := (List.pairwise_cons.mp hp).1 ("near", distSql 0 0 0 0) (by simp)
  simp only at hle
  rw [distSql_self] at hle
  linarith [distSql_far_pos]

theorem interactive_gdbCap_len :
    Except.map List.length (findCandidatesInteractive gdbCap "z") = .ok 21 := by
  have hall : ∀ u ∈ capIds.map (fun i => (⟨i, "f", 30, true, 0, 0⟩ : CandRow)),
      eligibleW "z" ⟨none, 18, 100, 100⟩ 0 0 u = true := by
    intro u hu
    rw [List.mem_map] at hu
    obtain ⟨i, hi, rfl⟩ := hu
    have hne : i ≠ "z" := by
      have hlem : ∀ j ∈ capIds, j ≠ "z" := by decide
      exact hlem i hi
    apply eligibleW_true_of
    · exact hne
    · rfl
    · exact Or.inl rfl
    · constructor <;> norm_num
    · show distSql 0 0 0 0 ≤ ((100 : Nat) : ℝ)
      rw [distSql_self]
      positivity
  unfold findCandidatesInteractive
  simp only [gdbCap, getPotentialMatchesPrefs, jsOrNat, if_true]
  rw [List.filter_eq_self.mpr hall]
  simp only [Except.map, List.length_map]
  rfl

theorem getPotentialMatchesResults_sorted (db : DB) (g : GeoDB) (cache : Cache)
    (me : String) (minScore : ℝ) (limit : Nat) (res : List MatchResult)
    (hres : getPotentialMatchesResults db g cache me minScore limit = .ok res) :
    res.length ≤ limit ∧ res.Pairwise (fun p q => q.score ≤ p.score) := by
  unfold getPotentialMatchesResults at hres
  cases hc : findCandidatesInteractive g me with
  | error e =>
    rw [hc] at hres
    exact absurd hres (by simp)
  | ok cands =>
    rw [hc] at hres
    simp only at hres
    have hres2 := Except.ok.inj hres
    rw [← hres2]
    constructor
    · rw [List.length_take]
      exact min_le_left _ _
    · have htrans : ∀ a b c : MatchResult, (fun a b : MatchResult => decide (b.score ≤ a.score)) a b = true
          → (fun a b : MatchResult => decide (b.score ≤ a.score)) b c = true
          → (fun a b : MatchResult => decide (b.score ≤ a.score)) a c = true := by
        intro a b c hab hbc
        simp only [decide_eq_true_eq] at hab hbc ⊢
        exact le_trans hbc hab
      have htotal : ∀ a b : MatchResult,
          ((fun a b : MatchResult => decide (b.score ≤ a.score)) a b
            || (fun a b : MatchResult => decide (b.score ≤ a.score)) b a) = true := by
        intro a b
        simp only [Bool.or_eq_true, decide_eq_true_eq]
        exact le_total b.score a.score
      have hs := @List.sorted_mergeSort MatchResult
        (fun a b : MatchResult => decide (b.score ≤ a.score)) htrans htotal
        ((cands.foldl (scoreLoopStep db me minScore
          (jsOrNat ((g.prefs me).bind PrefsRow.maxDistance) 100)) (cache, [])).2)
      have hs2 := hs.imp (fun h => of_decide_eq_true h)
      exact hs2.sublist (List.take_sublist _ _)

theorem getPotentialMatchesResults_gdbEmpty (db : DB) (cache : Cache) :
    getPotentialMatchesResults db gdbEmpty cache "z" 60 20 = .ok [] := by
  unfold getPotentialMatchesResults findCandidatesInteractive
  simp [gdbEmpty, getPotentialMatchesPrefs, jsOrNat]

theorem uniqueRecsAux_length_le (limit : Nat) :
    ∀ (l : List SongRef) (seen : List String) (acc : List SongRef),
      acc.length < limit → (uniqueRecsAux limit seen acc l).length ≤ limit := by
  intro l
  induction l with
  | nil =>
    intro seen acc h
    unfold uniqueRecsAux
    exact le_of_lt h
  | cons s rest ih =>
    intro seen acc h
    unfold uniqueRecsAux
    by_cases hs : s.id ∈ seen
    · rw [if_pos hs]
      exact ih seen acc h
    · rw [if_neg hs]
      by_cases hl : limit ≤ (acc ++ [s]).length
      · rw [if_pos hl]
        rw [List.length_append, List.length_singleton]
        omega
      · rw [if_neg hl]
        exact ih _ _ (lt_of_not_le hl)

theorem uniqueRecsAux_shape (limit : Nat) :
    ∀ (l : List SongRef) (seen : List String) (acc : List SongRef),
      ∃ tail, uniqueRecsAux limit seen acc l = acc ++ tail
        ∧ ∀ s ∈ tail, s ∈ l ∧ s.id ∉ seen := by
  intro l
  induction l with
  | nil =>
    intro seen acc
    refine ⟨[], ?_, by simp⟩
    unfold uniqueRecsAux
    simp
  | cons s rest ih =>
    intro seen acc
    unfold uniqueRecsAux
    by_cases hs : s.id ∈ seen
    · rw [if_pos hs]
      obtain ⟨tail, he, hm⟩ := ih seen acc
      exact ⟨tail, he, fun t ht => ⟨List.mem_cons_of_mem s (hm t ht).1, (hm t ht).2⟩⟩
    · rw [if_neg hs]
      by_cases hl : limit ≤ (acc ++ [s]).length
      · rw [if_pos hl]
        refine ⟨[s], rfl, ?_⟩
        intro t ht
        rw [List.mem_singleton] at ht
        rw [ht]
        exact ⟨List.mem_cons_self s rest, hs⟩
      · rw [if_neg hl]
        obtain ⟨tail, he, hm⟩ := ih (s.id :: seen) (acc ++ [s])
        refine ⟨s :: tail, ?_, ?_⟩
        · rw [he, List.append_assoc, List.singleton_append]
        · intro t ht
          rcases List.mem_cons.mp ht with ht1 | ht2
          · rw [ht1]
            exact ⟨List.mem_cons_self s rest, hs⟩
          · obtain ⟨h1, h2⟩ := hm t ht2
            exact ⟨List.mem_cons_of_mem s h1, fun hh => h2 (List.mem_cons_of_mem _ hh)⟩

theorem uniqueRecsAux_nodup (limit : Nat) :
    ∀ (l : List SongRef) (seen : List String) (acc : List SongRef),
      (acc.map SongRef.id).Nodup → (∀ s ∈ acc, s.id ∈ seen)
      → ((uniqueRecsAux limit seen acc l).map SongRef.id).Nodup := by
  intro l
  induction l with
  | nil =>
    intro seen acc h1 _
    unfold uniqueRecsAux
    exact h1
  | cons s rest ih =>
    intro seen acc h1 h2
    unfold uniqueRecsAux
    by_cases hs : s.id ∈ seen
    · rw [if_pos hs]
      exact ih seen acc h1 h2
    · rw [if_neg hs]
      have hnotin : s.id ∉ acc.map SongRef.id := by
        intro hmem
        rw [List.mem_map] at hmem
        obtain ⟨t, ht, hid⟩ := hmem
        exact hs (hid ▸ h2 t ht)
      have hnd2 : ((acc ++ [s]).map SongRef.id).Nodup := by
        rw [List.map_append, List.map_singleton]
        refine List.Nodup.append h1 (List.nodup_singleton _) ?_
        intro x hx hx2
        rw [List.mem_singleton] at hx2
        subst hx2
        exact hnotin hx
      by_cases hl : limit ≤ (acc ++ [s]).length
      · rw [if_pos hl]
        exact hnd2
      · rw [if_neg hl]
        apply ih (s.id :: seen) (acc ++ [s]) hnd2
        intro t ht
        rcases List.mem_append.mp ht with ht1 | ht1
        · exact List.mem_cons_of_mem _ (h2 t ht1)
        · rw [List.mem_singleton] at ht1
          subst ht1
          exact List.mem_cons_self _ _

theorem getPopular_not_excluded (popularRanked : List SongRef) (n : Nat)
    (excluded : List String) :
    ∀ s ∈ getPopular popularRanked n excluded, s.id ∉ excluded := by
  intro s hs
  unfold getPopular at hs
  have hf := List.mem_of_mem_take hs
  have hp := List.of_mem_filter hf
  simpa using hp

theorem getPopular_ids_nodup (popularRanked : List SongRef) (n : Nat)
    (excluded : List String) (h : (popularRanked.map SongRef.id).Nodup) :
    ((getPopular popularRanked n excluded).map SongRef.id).Nodup := by
  unfold getPopular
  apply List.Nodup.sublist _ h
  exact List.Sublist.map _ ((List.take_sublist _ _).trans (List.filter_sublist _))

theorem specContributedWeight_dbShared :
    specContributedWeight dbShared "a" "b" = 70 := by
  have hg1 : genreMsqFst dbShared "a" "b" = 0 := by
    simp [genreMsqFst, allGenres, dbShared]
  have hy1 : yearMsqFst dbShared "a" "b" = 0 := by
    have hd : allDecades dbShared "a" "b" = ∅ := by
      simp [allDecades, show userDecades dbShared "a" = ∅ from by decide,
        show userDecades dbShared "b" = ∅ from by decide]
    unfold yearMsqFst
    rw [hd, Finset.sum_empty]
  have hp1 : patternMsq dbShared "a" = 1 :=
    patternMsq_of_all_zero dbShared "a" (by decide) (by decide)
  have hp2 : patternMsq dbShared "b" = 1 :=
    patternMsq_of_all_zero dbShared "b" (by decide) (by decide)
  unfold specContributedWeight
  rw [if_pos (show (userSongs dbShared "a").length ≠ 0 ∧ (userSongs dbShared "b").length ≠ 0
      from by decide),
    if_pos (show totalPlays dbShared "a" ≠ 0 ∨ totalPlays dbShared "b" ≠ 0 from by decide),
    if_neg (show ¬(0 < genreMsqFst dbShared "a" "b" ∧ 0 < genreMsqFst dbShared "b" "a")
      from fun h => by rw [hg1] at h; exact lt_irrefl 0 h.1),
    if_pos (show 0 < patternMsq dbShared "a" ∧ 0 < patternMsq dbShared "b"
      from by rw [hp1, hp2]; norm_num),
    if_neg (show ¬(0 < yearMsqFst dbShared "a" "b" ∧ 0 < yearMsqFst dbShared "b" "a")
      from fun h => by rw [hy1] at h; exact lt_irrefl 0 h.1)]
  norm_num

/-! Claim theorems. -/

/-- Claim C1, counterexample: the claimed normalisation (divide by the sum of
the weights of the components actually evaluated) disagrees with the code on
the snapshot `dbShared`, where the genre and release-year populations are
empty: the code returns 70 while the claimed formula yields
70 / 70 · 100 = 100. -/
theorem C1_normalization_counterexample :
    finalScore dbShared "a" "b"
      ≠ totalScore dbShared "a" "b"
        / ((specContributedWeight dbShared "a" "b" : ℚ) : ℝ) * 100 := by
  rw [finalScore_dbShared, totalScore_dbShared, specContributedWeight_dbShared]
  norm_num

/-- Claim C1, amended: `maxPossibleScore` accumulates every component's
weight unconditionally, so the divisor is the constant 100 and the final
score always equals the plain sum of the sub-scores — empty components
contribute 0 to the numerator but their weight still divides. -/
theorem C1_divisor_always_100 : ∀ (db : DB) (u1 u2 : String),
    finalScore db u1 u2 = totalScore db u1 u2 / maxPossibleScore * 100
    ∧ maxPossibleScore = 100
    ∧ finalScore db u1 u2 = totalScore db u1 u2 := by
  intro db u1 u2
  refine ⟨?_, by norm_num [maxPossibleScore], finalScore_eq_totalScore db u1 u2⟩
  unfold finalScore
  rw [if_pos (by norm_num [maxPossibleScore])]

/-- Claim C2: on the snapshot `dbMulti` (both users played the same
three-artist song five times) the artist sub-score is 75, three times its
weight 25, and the final score is 120 > 100 — the code violates its own
documented `(0-100)` contract because the overlap numerator counts each
song's plays once per credited artist while the denominator counts them
once. -/
theorem C2_score_exceeds_100_on_multi_artist_song :
    artistScoreQ dbMulti "a" "b" = 75 ∧ finalScore dbMulti "a" "b" = 120 :=
  ⟨artistScoreQ_dbMulti, finalScore_dbMulti⟩

/-- Claim C3: the compatibility score is symmetric in its two user
arguments — exactly, for the unrounded model score and for the worker's
rounded score. -/
theorem C3_score_symmetric : ∀ (db : DB) (u1 u2 : String),
    finalScore db u1 u2 = finalScore db u2 u1
    ∧ workerFinalScore db u1 u2 = workerFinalScore db u2 u1 := by
  intro db u1 u2
  refine ⟨finalScore_comm db u1 u2, ?_⟩
  unfold workerFinalScore
  rw [finalScore_comm db u1 u2]

/-- Claim C4: starting from a ledger with no row for the pair, any non-empty
sequence of `storeMatchScore` calls in either argument order leaves exactly
one row for the unordered pair, keyed with the lexicographically smaller id
as `user_id_1`. -/
theorem C4_canonical_pair_single_row {α : Type} (a b : String) (hab : a ≠ b)
    (ops : List (Bool × α)) (hops : ops ≠ []) (led0 : List (MatchRow α))
    (h0 : pairRows led0 a b = []) :
    (pairRows (applyStores a b ops led0) a b).length = 1
    ∧ ∀ r ∈ pairRows (applyStores a b ops led0) a b,
        r.user1 = (canonPair a b).1 ∧ r.user2 = (canonPair a b).2 := by
  cases ops with
  | nil => exact absurd rfl hops
  | cons op0 rest =>
    obtain ⟨r0, hrows, hk1, hk2⟩ := applyStores_of_empty a b hab op0 rest led0 h0
    rw [hrows]
    refine ⟨rfl, ?_⟩
    intro r hr
    rw [List.mem_singleton] at hr
    rw [hr]
    exact ⟨hk1, hk2⟩

/-- Claim C4, witness: two stores for the pair `{a, b}`, one in each order,
leave exactly one canonical row. -/
theorem C4_canonical_pair_single_row_witness :
    (("a" : String) ≠ "b" ∧ ([(true, (1 : ℚ)), (false, 2)] : List (Bool × ℚ)) ≠ []
      ∧ pairRows ([] : List (MatchRow ℚ)) "a" "b" = [])
    ∧ ((pairRows (applyStores "a" "b" [(true, (1 : ℚ)), (false, 2)]
          ([] : List (MatchRow ℚ))) "a" "b").length = 1
      ∧ ∀ r ∈ pairRows (applyStores "a" "b" [(true, (1 : ℚ)), (false, 2)]
          ([] : List (MatchRow ℚ))) "a" "b",
          r.user1 = (canonPair "a" "b").1 ∧ r.user2 = (canonPair "a" "b").2) :=
  ⟨⟨by decide, by simp, rfl⟩,
    C4_canonical_pair_single_row "a" "b" (by decide) _ (by simp) [] rfl⟩

/-- Claim C5, counterexample: on `dbRound` the cold interactive path returns
the unrounded score 335/12, but after the worker pre-warms the cache the same
call returns the worker's one-decimal rounding 27.9 — pre-warming changes
the observable value. -/
theorem C5_worker_prewarm_changes_value :
    getOrComputeInteractive dbRound (workerPreWarm dbRound emptyCache "a" "b") "a" "b"
      ≠ getOrComputeInteractive dbRound emptyCache "a" "b" := by
  have hkey : interactiveScoreKey "a" "b" = workerScoreKey "a" "b" := by
    unfold interactiveScoreKey workerScoreKey
    simp only [if_pos string_lt_ab]
  have h1 : getOrComputeInteractive dbRound (workerPreWarm dbRound emptyCache "a" "b") "a" "b"
      = workerFinalScore dbRound "a" "b" := by
    simp only [getOrComputeInteractive, workerPreWarm, cacheSet]
    rw [if_pos hkey]
  have h2 : getOrComputeInteractive dbRound emptyCache "a" "b"
      = finalScore dbRound "a" "b" := rfl
  rw [h1, h2, workerFinalScore_dbRound, finalScore_dbRound]
  norm_num

/-- Claim C5, amended: pre-warming by the interactive path itself is
transparent — the cached value is the same unrounded score the cold path
computes — while worker pre-warming substitutes the rounded score (see the
counterexample). -/
theorem C5_interactive_prewarm_transparent : ∀ (db : DB) (u c : String),
    getOrComputeInteractive db (interactivePreWarm db emptyCache u c) u c
      = getOrComputeInteractive db emptyCache u c := by
  intro db u c
  simp only [getOrComputeInteractive, interactivePreWarm, cacheSet, emptyCache]
  simp

/-- Claim C6, counterexample: for requester `b` and candidate `a` the
interactive path reads and writes `match:score:b:a` while the worker uses the
canonical `match:score:a:b`. -/
theorem C6_interactive_key_not_canonical :
    interactiveScoreKey "b" "a" ≠ workerScoreKey "b" "a" := by
  have hnot : ¬ ("b" : String) < "a" := by
    rw [String.lt_iff_toList_lt]
    decide
  unfold interactiveScoreKey workerScoreKey
  rw [if_neg hnot]
  decide

/-- Claim C6, amended: the worker's key is canonical (symmetric in the
pair), and the interactive key agrees with it exactly when the requester id
is ≤ the candidate id. -/
theorem C6_key_agreement :
    (∀ u c : String, workerScoreKey u c = workerScoreKey c u)
    ∧ ∀ u c : String, u ≤ c → interactiveScoreKey u c = workerScoreKey u c := by
  constructor
  · intro u c
    unfold workerScoreKey
    rcases lt_trichotomy u c with h | h | h
    · simp only [if_pos h, if_neg (lt_asymm h)]
    · rw [h]
    · simp only [if_neg (lt_asymm h), if_pos h]
  · intro u c h
    unfold interactiveScoreKey workerScoreKey
    rcases lt_or_eq_of_le h with h2 | h2
    · simp only [if_pos h2]
    · rw [h2]
      simp only [if_neg (lt_irrefl c)]

/-- Claim C6, witness: the two paths agree on the pair (a, b) taken in
canonical order. -/
theorem C6_key_agreement_witness :
    (("a" : String) ≤ "b")
    ∧ interactiveScoreKey "a" "b" = workerScoreKey "a" "b" :=
  ⟨le_of_lt string_lt_ab, C6_key_agreement.2 "a" "b" (le_of_lt string_lt_ab)⟩

/-- Claim C7, counterexample: with one pending user whose single candidate
fails to score, the drain step still removes the user from the pending set
(`pending` ends empty although nothing was stored). -/
theorem C7_user_removed_despite_failure :
    (drainUser ⟨["u"], []⟩ "u" true [("c", false)]).pending = []
    ∧ (drainUser ⟨["u"], []⟩ "u" true [("c", false)]).stored = [] := by
  constructor <;> rfl

/-- Claim C7, amended: when the candidate query succeeds the worker stores a
score for every succeeding candidate (failures are skipped without stopping
the loop) and then removes the user from the pending set unconditionally —
whether or not some candidate failed; only a failure of the candidate query
itself leaves the user pending. -/
theorem C7_drain_removes_unconditionally :
    ∀ (st : WorkerState) (u : String) (cands : List (String × Bool)),
      (drainUser st u true cands).pending = st.pending.erase u
      ∧ (drainUser st u true cands).stored
          = st.stored ++ (cands.filter (fun c => c.2)).map (fun c => (u, c.1))
      ∧ drainUser st u false cands = st := by
  intro st u cands
  refine ⟨?_, ?_, ?_⟩
  · unfold drainUser
    rw [if_pos rfl]
  · unfold drainUser
    rw [if_pos rfl]
    exact processCandidates_eq u cands st.stored
  · unfold drainUser
    rw [if_neg Bool.false_ne_true]

/-- Claim C8, counterexample: the interactive candidate query applies no cap
before scoring (21 eligible candidates are all returned, beyond the claimed
20) and the worker's LIMIT-50 result carries no ordering (a farther candidate
precedes a nearer one). -/
theorem C8_candidates_unsorted_uncapped :
    Except.map List.length (findCandidatesInteractive gdbCap "z") = .ok 21
    ∧ ¬ ascendingByDistance (findCandidatesWorker gdbSort "z") :=
  ⟨interactive_gdbCap_len, not_ascending_gdbSort⟩

/-- Claim C8, amended: the recalculation path caps candidates at 50 in table
order without sorting; the interactive path scores every eligible candidate
and only afterwards sorts by descending adjusted score and truncates to
`limit`. -/
theorem C8_actual_order_and_caps :
    (∀ (g : GeoDB) (me : String), (findCandidatesWorker g me).length ≤ 50)
    ∧ ∀ (db : DB) (g : GeoDB) (cache : Cache) (me : String) (minScore : ℝ)
        (limit : Nat) (res : List MatchResult),
        getPotentialMatchesResults db g cache me minScore limit = .ok res
        → res.length ≤ limit ∧ res.Pairwise (fun p q => q.score ≤ p.score) :=
  ⟨findCandidatesWorker_length_le, getPotentialMatchesResults_sorted⟩

/-- Claim C8, witness: the interactive pipeline on an empty candidate table
returns an empty, trivially sorted result within the limit. -/
theorem C8_actual_order_and_caps_witness :
    (getPotentialMatchesResults dbShared gdbEmpty emptyCache "z" 60 20 = .ok [])
    ∧ (([] : List MatchResult).length ≤ 20
      ∧ ([] : List MatchResult).Pairwise (fun p q => q.score ≤ p.score)) :=
  ⟨getPotentialMatchesResults_gdbEmpty dbShared emptyCache,
    C8_actual_order_and_caps.2 dbShared gdbEmpty emptyCache "z" 60 20 []
      (getPotentialMatchesResults_gdbEmpty dbShared emptyCache)⟩

/-- Claim C9, counterexample: in `Match.getPotentialMatches`, a user with a
stored location but no preferences row still fails — the preference query is
rooted at `user_preferences`, so zero rows trigger the terminal error
instead of default substitution. -/
theorem C9_missing_prefs_fatal :
    getPotentialMatchesPrefs none (some (0, 0))
      = .error "User preferences or location not found" := rfl

/-- Claim C9, amended: `Match.getPotentialMatches` treats a missing
preferences row as terminal (defaults 18/100/100 are substituted only for
null fields of an existing row); the `/matches` route substitutes its full
default object when the row is absent and fails only on missing location;
the `/users` discovery route does the same but with default max distance 20,
not 100. -/
theorem C9_prefs_check_behaviour :
    (∀ l : ℚ × ℚ, getPotentialMatchesPrefs none (some l)
        = .error "User preferences or location not found")
    ∧ (∀ p : PrefsRow, getPotentialMatchesPrefs (some p) none
        = .error "User preferences or location not found")
    ∧ (∀ (p : PrefsRow) (l : ℚ × ℚ), getPotentialMatchesPrefs (some p) (some l)
        = .ok (⟨p.preferredGender, jsOrNat p.minAge 18, jsOrNat p.maxAge 100,
            jsOrNat p.maxDistance 100⟩, l))
    ∧ (∀ l : ℚ × ℚ, matchesRouteCheck none (some l) = .ok (matchesRouteDefaults, l))
    ∧ (∀ p : Option PrefsRow, matchesRouteCheck p none
        = .error "User location not found")
    ∧ (∀ p : Option PrefsRow, usersRouteCheck none p
        = .error "User location not found")
    ∧ (∀ (l : ℚ × ℚ) (p : PrefsRow), usersRouteCheck (some l) (some p)
        = .ok ⟨p.preferredGender, jsOrNat p.minAge 18, jsOrNat p.maxAge 100,
            jsOrNat p.maxDistance 20⟩) :=
  ⟨fun _ => rfl, fun _ => rfl, fun _ _ => rfl, fun _ => rfl, fun _ => rfl,
    fun _ => rfl, fun _ _ => rfl⟩

/-- Claim C10, counterexample: the established-user branch of the
`/recommendations/songs` route ignores collaborative candidates (the call is
commented out): with no content candidates and one collaborative candidate
the code returns the empty list while the claimed combination returns the
collaborative song. -/
theorem C10_no_collaborative_combination :
    establishedSongRecs [] [⟨"x"⟩] [] [] 20
      ≠ claimEstablishedSongRecs [] [⟨"x"⟩] [] [] 20 := by
  decide

/-- Claim C10, amended: the branch composes from content-based candidates
only, deduplicated by song id preserving first-seen order and capped at
`limit`, padded with popular songs that exclude both heard and already
selected ids; the result is independent of the collaborative candidates, has
pairwise-distinct song ids, stays within `limit`, and every padded entry is
unheard. -/
theorem C10_content_only_composition :
    ∀ (contentRecs collabRecs : List SongRef) (heardSongIds : List String)
      (popularRanked : List SongRef) (limit : Nat),
      (popularRanked.map SongRef.id).Nodup → 0 < limit →
      establishedSongRecs contentRecs collabRecs heardSongIds popularRanked limit
        = establishedSongRecs contentRecs [] heardSongIds popularRanked limit
      ∧ ((establishedSongRecs contentRecs collabRecs heardSongIds popularRanked
          limit).map SongRef.id).Nodup
      ∧ (establishedSongRecs contentRecs collabRecs heardSongIds popularRanked
          limit).length ≤ limit
      ∧ ∀ s ∈ establishedSongRecs contentRecs collabRecs heardSongIds popularRanked
          limit, s ∉ uniqueRecsAux limit [] [] contentRecs → s.id ∉ heardSongIds := by
  intro content collab heard popular limit hpop hlim
  have hUlen : (uniqueRecsAux limit [] [] content).length ≤ limit :=
    uniqueRecsAux_length_le limit content [] [] (by simpa using hlim)
  have hUnodup : ((uniqueRecsAux limit [] [] content).map SongRef.id).Nodup :=
    uniqueRecsAux_nodup limit content [] [] (by simp) (by simp)
  refine ⟨rfl, ?_⟩
  unfold establishedSongRecs
  by_cases hbr : (uniqueRecsAux limit [] [] content).length < limit
  · rw [if_pos hbr]
    have hPopNodup := getPopular_ids_nodup popular
      (limit - (uniqueRecsAux limit [] [] content).length)
      (heard ++ (uniqueRecsAux limit [] [] content).map SongRef.id) hpop
    have hPopExcl := getPopular_not_excluded popular
      (limit - (uniqueRecsAux limit [] [] content).length)
      (heard ++ (uniqueRecsAux limit [] [] content).map SongRef.id)
    refine ⟨?_, ?_, ?_⟩
    · rw [List.map_append]
      refine List.Nodup.append hUnodup hPopNodup ?_
      intro x hx hx2
      rw [List.mem_map] at hx2
      obtain ⟨t, ht, hid⟩ := hx2
      exact hPopExcl t ht (List.mem_append.mpr (Or.inr (hid ▸ hx)))
    · rw [List.length_append]
      have hPlen : (getPopular popular
          (limit - (uniqueRecsAux limit [] [] content).length)
          (heard ++ (uniqueRecsAux limit [] [] content).map SongRef.id)).length
          ≤ limit - (uniqueRecsAux limit [] [] content).length := by
        unfold getPopular
        rw [List.length_take]
        exact min_le_left _ _
      omega
    · intro s hs hnotU
      rcases List.mem_append.mp hs with h1 | h1
      · exact absurd h1 hnotU
      · intro hh
        exact hPopExcl s h1 (List.mem_append.mpr (Or.inl hh))
  · rw [if_neg hbr]
    refine ⟨hUnodup, hUlen, ?_⟩
    intro s hs hnotU
    exact absurd hs hnotU

/-- Claim C10, witness: a concrete instantiation with one content candidate,
one heard song and one popular song. -/
theorem C10_content_only_composition_witness :
    ((([(⟨"p"⟩ : SongRef)]).map SongRef.id).Nodup ∧ 0 < 2)
    ∧ (establishedSongRecs [⟨"x"⟩] [] ["h1"] [⟨"p"⟩] 2
        = establishedSongRecs [⟨"x"⟩] [] ["h1"] [⟨"p"⟩] 2
      ∧ ((establishedSongRecs [⟨"x"⟩] [] ["h1"] [⟨"p"⟩] 2).map SongRef.id).Nodup
      ∧ (establishedSongRecs [⟨"x"⟩] [] ["h1"] [⟨"p"⟩] 2).length ≤ 2
      ∧ ∀ s ∈ establishedSongRecs [⟨"x"⟩] [] ["h1"] [⟨"p"⟩] 2,
          s ∉ uniqueRecsAux 2 [] [] [⟨"x"⟩] → s.id ∉ ["h1"]) :=
  ⟨⟨by simp, by norm_num⟩,
    C10_content_only_composition [⟨"x"⟩] [] ["h1"] [⟨"p"⟩] 2 (by simp) (by norm_num)⟩

end Tunemate
